import Mathlib

/-!
Verification development for the TenGuard Watch news pipeline.

The development shallowly embeds the algorithmic core of the repository:

* `auto_news_updater.py` — title normalization (`normalize_title`), the title
  similarity heuristic (`are_titles_similar`), cross-source deduplication
  (`deduplicate_articles`) and the tag/urgency classifier
  (`extract_tags_and_urgency`, plus the default-tag fallback applied in
  `save_articles_to_json`);
* `scripts/generate_trends.py` — snapshot loading (`load_news_files`),
  domain extraction (`extract_domain`), keyword extraction
  (`extract_keywords`) and trend aggregation (`compute_metrics`).

Modelling conventions:

* Python strings are Lean `String`s; only ASCII data flows through the
  pipeline, so `re` character classes are modelled by their ASCII meaning
  (`\w` is alphanumeric-or-underscore, `\s` is whitespace).
* Python sets of strings are modelled as duplicate-free `List String`s:
  only membership and the cardinalities of intersections and unions are ever
  consumed, so any duplicate-free enumeration is a faithful model.
* Python dicts used as records with optional keys (the news items handled by
  `generate_trends.py`) are structures with `Option`-typed fields; the
  `dict.get(key, default)` idiom becomes `Option.getD`.
* `collections.Counter` objects are insertion-ordered association lists
  `List (String × Nat)`; `Counter.update` is a fold of `counterAdd`, and
  `most_common(n)` is a stable descending sort by count followed by `take n`,
  exactly the documented behavior (ties keep first-insertion order).
* Python's stable `sorted` is modelled by `List.insertionSort` with a
  reflexive total relation; `orderedInsert` places an element before the
  first element it relates to, which reproduces stability.
* The float threshold `0.7` is modelled as the exact rational `7/10`.  Every
  similarity ratio compared against it in this development has a small
  denominator, where binary-float and exact-rational comparison agree.
* Wall-clock values (the `last_update` timestamp, the date range endpoints
  computed from `datetime.now()`) are ambient inputs of the excluded
  collaborators; they are passed explicitly or omitted where noted.
-/

namespace TenGuard

/-! ## Basic text utilities (ASCII models of Python string/`re` operations) -/

/-- Character class of Python's `\w` (after lowercasing, on ASCII data):
letters, digits and underscore. -/
def isWordChar (c : Char) : Bool :=
  c.isAlphanum || c = '_'

/-- Character class of Python's `\s` on ASCII data: whitespace. -/
def isSpaceChar (c : Char) : Bool :=
  c.isWhitespace

/-- Accumulator-passing worker for `splitWords`: splits a character list on
whitespace runs, discarding empty chunks, as Python's `str.split()` does. -/
def wordsAux : List Char → List Char → List (List Char)
  | [], cur => if cur.isEmpty then [] else [cur.reverse]
  | c :: rest, cur =>
    if isSpaceChar c then
      if cur.isEmpty then wordsAux rest [] else cur.reverse :: wordsAux rest []
    else wordsAux rest (c :: cur)

/-- Python `s.split()`: whitespace-delimited words, empty chunks discarded. -/
def splitWords (s : String) : List String :=
  (wordsAux s.data []).map String.mk

/-- Contiguous-occurrence test on character lists; `occursInChars n h` is
Python's `n in h` for strings (true for the empty needle). -/
def occursInChars (needle : List Char) : List Char → Bool
  | [] => needle.isEmpty
  | c :: rest => needle.isPrefixOf (c :: rest) || occursInChars needle rest

/-- Python's substring containment `needle in hay`. -/
def containsStr (hay needle : String) : Bool :=
  occursInChars needle.data hay.data

/-- Python `str.lower()` on ASCII data.  Extensionally identical to
`String.toLower`, written through `List.map` so that the kernel can
evaluate it (`String.mapAux` is compiler-opaque). -/
def strLower (s : String) : String :=
  String.mk (s.data.map Char.toLower)

/-- Exact rational value of the integer division `a / b` (Python `/` on the
set cardinalities that feed the Jaccard ratios).  `mkRat a b` is definitionally
kernel-evaluable and provably equal to `(a : ℚ) / (b : ℚ)`. -/
def ratio (a b : ℕ) : ℚ :=
  mkRat a b

/-! ## `auto_news_updater.py`: normalization, similarity, dedupe, classifier -/

/-- Lean embedding of `normalize_title` (`auto_news_updater.py:323`):
lowercase, strip characters outside `\w`/`\s`, collapse whitespace runs. -/
def normalize_title (title : String) : String :=
  if title = "" then ""
  else
    let lowered := strLower title
    let cleaned := String.mk (lowered.data.filter fun c => isWordChar c || isSpaceChar c)
    String.intercalate " " (splitWords cleaned)

/-- Stopword set removed inside `are_titles_similar`
(`auto_news_updater.py:360`), as a duplicate-free list. -/
def simStopwords : List String :=
  ["the", "a", "an", "and", "or", "but", "in", "on", "at", "to", "for", "of",
   "with", "by", "from", "as", "is", "was", "are", "were", "been", "be",
   "have", "has", "had", "do", "does", "did", "will", "would", "could",
   "should", "may", "might", "must", "can", "this", "that", "these", "those"]

/-- Default similarity threshold (`threshold=0.7`), as an exact rational. -/
def defaultThreshold : ℚ := mkRat 7 10

/-- Lean embedding of `are_titles_similar` (`auto_news_updater.py:335`).
Python sets are modelled as duplicate-free lists; the cardinality of an
intersection is the length of a membership filter and the cardinality of a
union the length of the deduplicated concatenation. -/
def are_titles_similar (title1 title2 : String) (threshold : ℚ) : Bool :=
  if title1 = "" ∨ title2 = "" then false
  else
    let norm1 := normalize_title title1
    let norm2 := normalize_title title2
    if norm1 = norm2 then true
    else if 20 < norm1.length ∧ 20 < norm2.length ∧
        (occursInChars norm1.data norm2.data ∨ occursInChars norm2.data norm1.data) then true
    else
      let words1 := ((splitWords norm1).dedup).filter fun w => !simStopwords.contains w
      let words2 := ((splitWords norm2).dedup).filter fun w => !simStopwords.contains w
      if words1.isEmpty ∨ words2.isEmpty then false
      else
        let inter := (words1.filter fun w => words2.contains w).length
        let union := ((words1 ++ words2).dedup).length
        if union = 0 then false
        else
          let similarity : ℚ := ratio inter union
          let sig1 := words1.filter fun w => 4 < w.length
          let sig2 := words2.filter fun w => 4 < w.length
          if ¬sig1.isEmpty ∧ ¬sig2.isEmpty then
            let sigInter := (sig1.filter fun w => sig2.contains w).length
            let sigUnion := ((sig1 ++ sig2).dedup).length
            let significantOverlap : ℚ := ratio sigInter sigUnion
            if threshold ≤ significantOverlap then true
            else decide (threshold ≤ similarity)
          else decide (threshold ≤ similarity)

/-- Article record as assembled by the fetchers in `auto_news_updater.py`;
every fetcher supplies all four keys, so the fields are total. -/
structure Article where
  title : String
  link : String
  summary : String
  source : String
deriving DecidableEq, Repr

/-- Worker for `deduplicate_articles`: `seen` is the `seen_titles` list of
titles of already-accepted articles.  An article is dropped when its title is
similar (at the default threshold) to any seen title. -/
def dedupeAux : List Article → List String → List Article
  | [], _ => []
  | a :: rest, seen =>
    if seen.any (fun s => are_titles_similar a.title s defaultThreshold) then
      dedupeAux rest seen
    else
      a :: dedupeAux rest (seen ++ [a.title])

/-- Lean embedding of `deduplicate_articles` (`auto_news_updater.py:387`):
first occurrence wins, relative order of survivors preserved. -/
def deduplicate_articles (articles : List Article) : List Article :=
  dedupeAux articles []

/-- Tag trigger table of `extract_tags_and_urgency`
(`auto_news_updater.py:441`), in dict insertion order. -/
def tag_keywords : List (String × List String) :=
  [("vulnerability", ["vulnerability", "cve", "exploit", "patch"]),
   ("malware", ["malware", "trojan", "virus", "backdoor"]),
   ("phishing", ["phishing", "smishing", "social engineering"]),
   ("ransomware", ["ransomware", "encryption", "decrypt"]),
   ("breach", ["breach", "leak", "data exposure", "compromised"]),
   ("apt", ["apt", "nation-state", "espionage", "government"]),
   ("attack", ["attack", "campaign", "targeting"]),
   ("critical", ["critical", "zero-day", "actively exploited"])]

/-- High-urgency trigger list (`auto_news_updater.py:458`). -/
def highUrgencyKeywords : List String :=
  ["critical", "zero-day", "actively exploited", "emergency"]

/-- Medium-urgency trigger list (`auto_news_updater.py:460`). -/
def mediumUrgencyKeywords : List String :=
  ["exploit", "breach", "ransomware", "attack"]

/-- Lean embedding of `extract_tags_and_urgency` (`auto_news_updater.py:433`):
multi-label tags from trigger keywords over the lower-cased title+summary,
and a single urgency chosen by a fixed priority cascade. -/
def extract_tags_and_urgency (article : Article) : List String × String :=
  let text := strLower article.title ++ " " ++ strLower article.summary
  let tags :=
    (tag_keywords.filter fun tk => tk.2.any fun kw => containsStr text kw).map Prod.fst
  let urgency :=
    if highUrgencyKeywords.any (fun kw => containsStr text kw) then "High"
    else if mediumUrgencyKeywords.any (fun kw => containsStr text kw) then "Medium"
    else "Low"
  (tags, urgency)

/-- Classification as consumed downstream: `save_articles_to_json`
(`auto_news_updater.py:490`) replaces an empty tag list with the catch-all
`["cybersecurity"]`; the urgency is passed through unchanged. -/
def classify (article : Article) : List String × String :=
  let tu := extract_tags_and_urgency article
  (if tu.1.isEmpty then ["cybersecurity"] else tu.1, tu.2)

/-! ## `scripts/generate_trends.py`: data model -/

/-- News item as read back from the daily snapshot JSON files.  The items are
Python dicts with optional keys; each field is `Option`-typed and the
`dict.get(key, default)` accesses become `Option.getD`.  The `tags` value is
typed as a list, so the `isinstance(tags, list)` guard in `compute_metrics`
is always satisfied here. -/
structure Item where
  title : Option String := none
  link : Option String := none
  summary : Option String := none
  source : Option String := none
  date : Option String := none
  tags : Option (List String) := none
  urgency : Option String := none
deriving DecidableEq, Repr

/-- Python `item.get('tags', [])`. -/
def getTags (i : Item) : List String := i.tags.getD []

/-- Python `item.get('urgency', 'Medium')`. -/
def getUrgency (i : Item) : String := i.urgency.getD "Medium"

/-- Python `item.get('date', '')`. -/
def getDate (i : Item) : String := i.date.getD ""

/-! ## Counters and stable sorting

`collections.Counter` is an insertion-ordered mapping; it is modelled as an
association list with duplicate-free keys.  `Counter.most_common(n)` and
Python's `sorted` are stable sorts, modelled by `List.insertionSort` with a
reflexive total relation (`orderedInsert` keeps an element ahead of every
element it relates to, so ties preserve first-encountered order). -/

/-- Increment key `k` of an insertion-ordered counter (a new key is appended
at the end, as a Python dict insertion does). -/
def counterAdd : List (String × Nat) → String → List (String × Nat)
  | [], k => [(k, 1)]
  | (k', n) :: rest, k =>
    if k' = k then (k', n + 1) :: rest else (k', n) :: counterAdd rest k

/-- Python `Counter.update(ks)`: fold `counterAdd` over the key list. -/
def counterFold (c : List (String × Nat)) (ks : List String) : List (String × Nat) :=
  ks.foldl counterAdd c

/-- Lookup of a key's count in an insertion-ordered counter
(`counter[k]` presence, `None` when the key was never counted). -/
def counterLookup : List (String × Nat) → String → Option Nat
  | [], _ => none
  | (k', n) :: rest, k => if k' = k then some n else counterLookup rest k

/-- Descending-by-count order used by `Counter.most_common`; reflexive so
that the stable sort keeps ties in insertion order. -/
def countGE (a b : String × Nat) : Prop := b.2 ≤ a.2

instance : DecidableRel countGE := fun a b => inferInstanceAs (Decidable (b.2 ≤ a.2))

/-- Python `Counter.most_common(n)`: stable descending sort by count, first
`n` entries. -/
def mostCommon (n : Nat) (c : List (String × Nat)) : List (String × Nat) :=
  (List.insertionSort countGE c).take n

/-- Ascending order of `sorted(daily_counts.items())`: lexicographic on the
`(date, count)` pair (the keys of a counter are distinct, so the date alone
decides). -/
def pairLe (a b : String × Nat) : Prop :=
  a.1 < b.1 ∨ (a.1 = b.1 ∧ a.2 ≤ b.2)

instance : DecidableRel pairLe :=
  fun a b => inferInstanceAs (Decidable (a.1 < b.1 ∨ (a.1 = b.1 ∧ a.2 ≤ b.2)))

/-- The `urgency_priority` ranking of `compute_metrics`
(`generate_trends.py:223`): `dict.get(urgency, 2)` with
`{High: 3, Medium: 2, Low: 1}`. -/
def urgencyPriority (u : String) : Nat :=
  if u = "High" then 3 else if u = "Medium" then 2 else if u = "Low" then 1 else 2

/-- Sort key of `top_articles`: `(urgency_priority, date)`. -/
def rankOf (i : Item) : Nat × String :=
  (urgencyPriority (getUrgency i), getDate i)

/-- Descending lexicographic order on `rankOf`, the order produced by
`sorted(items, key=..., reverse=True)`; reflexive for stability. -/
def itemGE (x y : Item) : Prop :=
  (rankOf y).1 < (rankOf x).1 ∨ ((rankOf y).1 = (rankOf x).1 ∧ (rankOf y).2 ≤ (rankOf x).2)

instance : DecidableRel itemGE :=
  fun x y => inferInstanceAs
    (Decidable ((rankOf y).1 < (rankOf x).1 ∨
      ((rankOf y).1 = (rankOf x).1 ∧ (rankOf y).2 ≤ (rankOf x).2)))

/-! ## `extract_domain` and `extract_keywords` -/

/-- Valid characters of a URL scheme after its leading letter. -/
def isSchemeChar (c : Char) : Bool :=
  c.isAlphanum || c = '+' || c = '-' || c = '.'

/-- Modelled from the Python stdlib: the scheme-stripping step of
`urllib.parse.urlparse`.  When the text before the first `:` is a valid
scheme (a letter followed by letters, digits, `+`, `-`, `.`), the scheme and
the colon are dropped; otherwise the input is unchanged. -/
def dropUrlScheme (cs : List Char) : List Char :=
  let before := cs.takeWhile fun c => c ≠ ':'
  match cs.dropWhile fun c => c ≠ ':' with
  | ':' :: rest =>
    match before with
    | [] => cs
    | h :: t => if h.isAlpha && (h :: t).all isSchemeChar then rest else cs
  | _ => cs

/-- Modelled from the Python stdlib: the `(netloc, path)` fields of
`urllib.parse.urlparse` for the URLs this program handles (which contain no
query or fragment).  The netloc is the run between `//` and the next `/`;
without `//` the whole remainder is the path and the netloc is empty. -/
def urlNetlocPath (url : String) : String × String :=
  match dropUrlScheme url.data with
  | '/' :: '/' :: more =>
    (String.mk (more.takeWhile fun c => c ≠ '/'),
     String.mk (more.dropWhile fun c => c ≠ '/'))
  | rest => ("", String.mk rest)

/-- Lean embedding of `extract_domain` (`generate_trends.py:48`):
`netloc or path`, strip a leading `www.`, keep the text before the first
`/`, and fall back to `"unknown"` when empty. -/
def extract_domain (url : String) : String :=
  let np := urlNetlocPath url
  let domain := if np.1 = "" then np.2 else np.1
  let cs := if ("www.".data).isPrefixOf domain.data then domain.data.drop 4 else domain.data
  let cs := cs.takeWhile fun c => c ≠ '/'
  if cs.isEmpty then "unknown" else String.mk cs

/-- Stopword list `STOPWORDS` of `generate_trends.py:32`. -/
def STOPWORDS : List String :=
  ["the", "be", "to", "of", "and", "a", "in", "that", "have", "i",
   "it", "for", "not", "on", "with", "he", "as", "you", "do", "at",
   "this", "but", "his", "by", "from", "they", "we", "say", "her", "she",
   "or", "an", "will", "my", "one", "all", "would", "there", "their",
   "what", "so", "up", "out", "if", "about", "who", "get", "which", "go",
   "me", "when", "make", "can", "like", "time", "no", "just", "him", "know",
   "take", "people", "into", "year", "your", "good", "some", "could", "them",
   "see", "other", "than", "then", "now", "look", "only", "come", "its", "over",
   "think", "also", "back", "after", "use", "two", "how", "our", "work",
   "first", "well", "way", "even", "new", "want", "because", "any", "these",
   "give", "day", "most", "us", "is", "was", "are", "been", "has", "had",
   "were", "said", "did", "having", "may", "should", "am", "being", "more"]

/-- Worker splitting a character list into maximal runs of `\w` characters
(the candidate tokens between `\b` boundaries). -/
def tokenRunsAux : List Char → List Char → List (List Char)
  | [], cur => if cur.isEmpty then [] else [cur.reverse]
  | c :: rest, cur =>
    if isWordChar c then tokenRunsAux rest (c :: cur)
    else if cur.isEmpty then tokenRunsAux rest []
    else cur.reverse :: tokenRunsAux rest []

/-- Python `re.findall(r'\b[a-z]+\b', text.lower())` on ASCII data: the
maximal word-character runs consisting entirely of lowercase letters (a run
containing a digit or underscore has no word boundary inside it, so it
yields no match at all). -/
def findLowerAlphaRuns (text : String) : List String :=
  (((tokenRunsAux (strLower text).data []).filter fun run => run.all Char.isLower).map
    String.mk)

/-- Lean embedding of `extract_keywords` (`generate_trends.py:63`). -/
def extract_keywords (text : String) (min_length : Nat) : List String :=
  let words := findLowerAlphaRuns text
  words.filter fun w => !STOPWORDS.contains w && min_length ≤ w.length

/-! ## `compute_metrics` -/

/-- Source attribution of one item: the `source` field, or the domain of the
`link` when the source is missing or empty (`generate_trends.py:194`). -/
def sourceOf (i : Item) : String :=
  match i.source with
  | none => extract_domain (i.link.getD "")
  | some s => if s = "" then extract_domain (i.link.getD "") else s

/-- Shape of one entry of `top_articles` (`generate_trends.py:247`). -/
structure ArticleSummary where
  title : String
  link : String
  summary : String
  urgency : String
  date : String
  tags : List String
deriving DecidableEq, Repr

/-- Projection of an item to its `top_articles` summary: note the summary is
truncated to 200 characters. -/
def mkSummary (i : Item) : ArticleSummary :=
  { title := i.title.getD "Untitled"
    link := i.link.getD "#"
    summary := String.mk ((i.summary.getD "").data.take 200)
    urgency := getUrgency i
    date := getDate i
    tags := getTags i }

/-- Result record of `compute_metrics` (`generate_trends.py:234`), with the
`kpis` sub-dict flattened into the last three fields.  The `last_update`
timestamp (a wall-clock read) is omitted: it belongs to the excluded clock
collaborator. -/
structure TrendMetrics where
  tag_counts_7 : List (String × Nat)
  tag_counts_30 : List (String × Nat)
  urgency_counts_7 : List (String × Nat)
  urgency_counts_30 : List (String × Nat)
  top_sources : List (String × Nat)
  top_keywords : List (String × Nat)
  daily_counts : List (String × Nat)
  top_articles : List ArticleSummary
  total_7_days : Nat
  total_30_days : Nat
  top_tag : String
deriving DecidableEq, Repr

/-- Lean embedding of `compute_metrics` (`generate_trends.py:150`). -/
def compute_metrics (items days_7 days_30 : List Item) : TrendMetrics :=
  let tagCounts7 := days_7.foldl (fun c i => counterFold c (getTags i)) []
  let tagCounts30 := days_30.foldl (fun c i => counterFold c (getTags i)) []
  let urgencyCounts7 := days_7.foldl (fun c i => counterAdd c (getUrgency i)) []
  let urgencyCounts30 := days_30.foldl (fun c i => counterAdd c (getUrgency i)) []
  let sourceCounts := days_30.foldl (fun c i => counterAdd c (sourceOf i)) []
  let keywordCounter := days_30.foldl
    (fun c i =>
      counterFold c (extract_keywords ((i.title.getD "") ++ " " ++ (i.summary.getD "")) 3)) []
  let dailyCounter := days_30.foldl
    (fun c i => let d := getDate i; if d = "" then c else counterAdd c d) []
  let sortedItems := List.insertionSort itemGE items
  { tag_counts_7 := mostCommon 20 tagCounts7
    tag_counts_30 := mostCommon 20 tagCounts30
    urgency_counts_7 := urgencyCounts7
    urgency_counts_30 := urgencyCounts30
    top_sources := mostCommon 10 sourceCounts
    top_keywords := mostCommon 20 keywordCounter
    daily_counts := List.insertionSort pairLe dailyCounter
    top_articles := (sortedItems.take 10).map mkSummary
    total_7_days := days_7.length
    total_30_days := days_30.length
    top_tag :=
      match mostCommon 1 tagCounts30 with
      | [] => "N/A"
      | p :: _ => p.1 }

/-! ## `load_news_files` -/

/-- Outcome of opening and parsing one dated snapshot file, as distinguished
by `load_news_files` (`generate_trends.py:111`): the `{"items": [...]}`
shape, a bare top-level list, some other successfully parsed JSON value
(warned about, zero items), or a file that fails to parse (logged and
skipped). -/
inductive FileData where
  | withItems (items : List Item)
  | bareList (items : List Item)
  | otherShape
  | malformed
deriving DecidableEq, Repr

/-- The in-place date annotation of `load_news_files`: an item without a
`date` key receives the file's date. -/
def annotateDate (d : String) (i : Item) : Item :=
  if i.date = none then { i with date := some d } else i

/-- Items contributed by the file of one date: an absent file contributes
nothing silently, a malformed file is logged and skipped, an
unexpected-shape file warns and contributes zero items, and both accepted
shapes contribute their date-annotated items. -/
def fileItems (d : String) : Option FileData → List Item
  | none => []
  | some (.withItems items) => items.map (annotateDate d)
  | some (.bareList items) => items.map (annotateDate d)
  | some .otherShape => []
  | some .malformed => []

/-- Lean embedding of `load_news_files` (`generate_trends.py:86`).  The
directory is a map from ISO date string to file contents (`none` = file
absent; a missing directory behaves as every file absent and is subsumed).
The `dates` argument is the inclusive day range `[now - days, now]` in
ascending order; the endpoints come from the excluded wall-clock
collaborator, so the range is passed explicitly. -/
def load_news_files (dir : String → Option FileData) (dates : List String) : List Item :=
  dates.foldl (fun acc d => acc ++ fileItems d (dir d)) []

/-! ## Statement helpers -/

/-- Invariant of the deduplicator's output relative to an already-seen title
list: each article is dissimilar from every seen title and from the titles of
all articles before it. -/
def dedupeInv (seen : List String) : List Article → Prop
  | [] => True
  | a :: rest =>
    (seen.any (fun s => are_titles_similar a.title s defaultThreshold) = false) ∧
    dedupeInv (seen ++ [a.title]) rest

/-- Explicitly materialize the `Medium` default: an item without an
`urgency` key receives `urgency = "Medium"`; other items are unchanged. -/
def withDefaultUrgency (i : Item) : Item :=
  if i.urgency = none then { i with urgency := some "Medium" } else i

/-- Item with every key absent (the empty dict `{}`). -/
def blankItem : Item := {}

/-- Three dated items (two sharing a date) used to instantiate the
daily-count theorem at a concrete input. -/
def c9Items : List Item :=
  [{ date := some "2025-01-02" }, { date := some "2025-01-01" },
   { date := some "2025-01-01" }]

/-- Snapshot directory of the loader scenario: a valid two-item file dated
2025-01-01 next to a malformed file dated 2025-01-02. -/
def scenarioDir : String → Option FileData := fun d =>
  if d = "2025-01-01" then
    some (.withItems [{ title := some "A" }, { title := some "B" }])
  else if d = "2025-01-02" then some .malformed
  else none

/-! ## Deduplicator lemmas -/

/-- Unfolding equation of the dedupe worker on a non-empty input. -/
theorem dedupeAux_cons (a : Article) (rest : List Article) (seen : List String) :
    dedupeAux (a :: rest) seen =
      if seen.any (fun s => are_titles_similar a.title s defaultThreshold) then
        dedupeAux rest seen
      else a :: dedupeAux rest (seen ++ [a.title]) := rfl

/-- The output of the dedupe worker satisfies the dissimilarity invariant
with respect to the seen-title list it started from. -/
theorem dedupeAux_inv (xs : List Article) :
    ∀ seen, dedupeInv seen (dedupeAux xs seen) := by
  induction xs with
  | nil => intro seen; trivial
  | cons a rest ih =>
    intro seen
    rw [dedupeAux_cons]
    by_cases h : (seen.any fun s => are_titles_similar a.title s defaultThreshold) = true
    · rw [if_pos h]
      exact ih seen
    · rw [Bool.not_eq_true] at h
      rw [if_neg (by simp [h])]
      exact ⟨h, ih (seen ++ [a.title])⟩

/-- A list satisfying the dissimilarity invariant is a fixed point of the
dedupe worker. -/
theorem dedupeAux_fixpoint (l : List Article) :
    ∀ seen, dedupeInv seen l → dedupeAux l seen = l := by
  induction l with
  | nil => intro seen _; rfl
  | cons a rest ih =>
    intro seen hinv
    obtain ⟨h1, h2⟩ := hinv
    rw [dedupeAux_cons, if_neg (by simp [h1]), ih (seen ++ [a.title]) h2]

/-- C4: deduplication is idempotent — deduplicating an already deduplicated
article list changes nothing: `dedupe(dedupe(X)) == dedupe(X)`. -/
theorem deduplicate_articles_idempotent (xs : List Article) :
    deduplicate_articles (deduplicate_articles xs) = deduplicate_articles xs :=
  dedupeAux_fixpoint (dedupeAux xs []) [] (dedupeAux_inv xs [])

/-! ## Similarity and classifier theorems -/

/-- C5: title similarity is reflexive at the default threshold for every
title; a title is a non-empty string (the guard on the empty string in
`are_titles_similar` short-circuits before the normalized forms, which are
trivially equal, are compared). -/
theorem are_titles_similar_refl (T : String) (h : T ≠ "") :
    are_titles_similar T T defaultThreshold = true := by
  unfold are_titles_similar
  simp [h]

/-- Witness for C5 at a concrete title. -/
theorem are_titles_similar_refl_witness :
    ("Critical Windows Vulnerability" ≠ "") ∧
    are_titles_similar "Critical Windows Vulnerability" "Critical Windows Vulnerability"
      defaultThreshold = true :=
  ⟨by decide, are_titles_similar_refl "Critical Windows Vulnerability" (by decide)⟩

/-- C3: the classifier is total — for every article (empty summary included)
the tag list consumed downstream is non-empty (falling back to the
`cybersecurity` catch-all), and the urgency is exactly one of `High`,
`Medium`, `Low`. -/
theorem classify_total (a : Article) :
    (classify a).1 ≠ [] ∧
    ((classify a).2 = "High" ∨ (classify a).2 = "Medium" ∨ (classify a).2 = "Low") := by
  have h1 : (classify a).1 =
      if (extract_tags_and_urgency a).1.isEmpty then ["cybersecurity"]
      else (extract_tags_and_urgency a).1 := rfl
  have h2 : (classify a).2 = (extract_tags_and_urgency a).2 := rfl
  constructor
  · rw [h1]
    split
    · simp
    · rename_i hne
      rw [Bool.not_eq_true, List.isEmpty_eq_false] at hne
      exact hne
  · have h3 : (extract_tags_and_urgency a).2 =
        if highUrgencyKeywords.any (fun kw =>
            containsStr (strLower a.title ++ " " ++ strLower a.summary) kw) then "High"
        else if mediumUrgencyKeywords.any (fun kw =>
            containsStr (strLower a.title ++ " " ++ strLower a.summary) kw) then "Medium"
        else "Low" := rfl
    rw [h2, h3]
    split_ifs
    · exact Or.inl rfl
    · exact Or.inr (Or.inl rfl)
    · exact Or.inr (Or.inr rfl)

/-! ## The two-headline similarity scenario (C1) -/

/-- C1 counterexample: for the two scenario headlines the similarity check at
the default threshold 0.7 does NOT return true (the significant-word Jaccard
is 1/2 and the full-token Jaccard 3/7), and dedupe does NOT collapse the pair
to the first article. -/
theorem similar_scenario_cex :
    (are_titles_similar "Critical Windows Vulnerability Exploited in Wild"
        "Windows Vulnerability Being Actively Exploited" defaultThreshold = true ∧
      deduplicate_articles
        [⟨"Critical Windows Vulnerability Exploited in Wild", "https://a.example/1", "", "A"⟩,
         ⟨"Windows Vulnerability Being Actively Exploited", "https://b.example/2", "", "B"⟩] =
        [⟨"Critical Windows Vulnerability Exploited in Wild", "https://a.example/1", "", "A"⟩]) =
      False :=
  eq_false (by decide)

/-- C1 amended: for the two scenario headlines the similarity check at the
default threshold 0.7 returns false — their shared significant words
{windows, vulnerability, exploited} give a significant-word Jaccard of 3/6
and a full-token Jaccard of 3/7, both below 0.7 — and therefore both
articles survive `dedupe`, in input order. -/
theorem similar_scenario_amended :
    are_titles_similar "Critical Windows Vulnerability Exploited in Wild"
      "Windows Vulnerability Being Actively Exploited" defaultThreshold = false ∧
    deduplicate_articles
      [⟨"Critical Windows Vulnerability Exploited in Wild", "https://a.example/1", "", "A"⟩,
       ⟨"Windows Vulnerability Being Actively Exploited", "https://b.example/2", "", "B"⟩] =
      [⟨"Critical Windows Vulnerability Exploited in Wild", "https://a.example/1", "", "A"⟩,
       ⟨"Windows Vulnerability Being Actively Exploited", "https://b.example/2", "", "B"⟩] := by
  decide

/-! ## Aggregation on empty input (C7) -/

/-- C7: aggregating three empty item lists returns the zero-valued metrics
record — every counter empty, no daily entries, no top articles, zero KPI
totals and the `N/A` sentinel top tag (and, the aggregator being a total
function, it cannot raise). -/
theorem compute_metrics_empty :
    compute_metrics [] [] [] =
      { tag_counts_7 := []
        tag_counts_30 := []
        urgency_counts_7 := []
        urgency_counts_30 := []
        top_sources := []
        top_keywords := []
        daily_counts := []
        top_articles := []
        total_7_days := 0
        total_30_days := 0
        top_tag := "N/A" } := by
  rfl

/-- C2 counterexample: aggregating a single `High`-urgency item produces
urgency-count maps with no entry at all for `Medium` or `Low` (rather than
entries with value 0). -/
theorem urgency_counts_cex :
    counterLookup (compute_metrics [{ urgency := some "High" }] [{ urgency := some "High" }]
      [{ urgency := some "High" }]).urgency_counts_7 "Medium" = none ∧
    counterLookup (compute_metrics [{ urgency := some "High" }] [{ urgency := some "High" }]
      [{ urgency := some "High" }]).urgency_counts_30 "Low" = none := by
  decide

/-! ## Counter lemmas -/

/-- Unfolding equation: incrementing the key at the head of the counter. -/
theorem counterAdd_cons_eq (k : String) (n : Nat) (rest : List (String × Nat)) :
    counterAdd ((k, n) :: rest) k = (k, n + 1) :: rest := by
  simp [counterAdd]

/-- Unfolding equation: incrementing a key different from the head. -/
theorem counterAdd_cons_ne {k' k : String} (h : k' ≠ k) (n : Nat)
    (rest : List (String × Nat)) :
    counterAdd ((k', n) :: rest) k = (k', n) :: counterAdd rest k := by
  simp [counterAdd, h]

/-- Unfolding equation: looking up the key at the head of the counter. -/
theorem counterLookup_cons_eq (k : String) (n : Nat) (rest : List (String × Nat)) :
    counterLookup ((k, n) :: rest) k = some n := by
  simp [counterLookup]

/-- Unfolding equation: looking up a key different from the head. -/
theorem counterLookup_cons_ne {k' k : String} (h : k' ≠ k) (n : Nat)
    (rest : List (String × Nat)) :
    counterLookup ((k', n) :: rest) k = counterLookup rest k := by
  simp [counterLookup, h]

/-- Incrementing a key makes its looked-up count one more than before. -/
theorem counterLookup_counterAdd_self (c : List (String × Nat)) (k : String) :
    counterLookup (counterAdd c k) k = some ((counterLookup c k).getD 0 + 1) := by
  induction c with
  | nil => simp [counterAdd, counterLookup]
  | cons p rest ih =>
    obtain ⟨k', n⟩ := p
    by_cases h : k' = k
    · subst h
      rw [counterAdd_cons_eq, counterLookup_cons_eq, counterLookup_cons_eq]
      simp
    · rw [counterAdd_cons_ne h, counterLookup_cons_ne h, counterLookup_cons_ne h, ih]

/-- Incrementing a key leaves every other key's count unchanged. -/
theorem counterLookup_counterAdd_ne (c : List (String × Nat)) {k k' : String} (h : k ≠ k') :
    counterLookup (counterAdd c k') k = counterLookup c k := by
  induction c with
  | nil => simp [counterAdd, counterLookup, Ne.symm h]
  | cons p rest ih =>
    obtain ⟨k'', n⟩ := p
    by_cases h2 : k'' = k'
    · subst h2
      rw [counterAdd_cons_eq, counterLookup_cons_ne (Ne.symm h),
        counterLookup_cons_ne (Ne.symm h)]
    · rw [counterAdd_cons_ne h2]
      by_cases h3 : k'' = k
      · subst h3
        rw [counterLookup_cons_eq, counterLookup_cons_eq]
      · rw [counterLookup_cons_ne h3, counterLookup_cons_ne h3, ih]

/-- Folding a key list into a counter adds each key's multiplicity to its
count, creating the entry when the key occurs. -/
theorem counterLookup_counterFold (ks : List String) :
    ∀ (c : List (String × Nat)) (k : String),
      counterLookup (counterFold c ks) k =
        if ks.count k = 0 then counterLookup c k
        else some ((counterLookup c k).getD 0 + ks.count k) := by
  induction ks with
  | nil => intro c k; simp [counterFold]
  | cons k' rest ih =>
    intro c k
    have hstep : counterFold c (k' :: rest) = counterFold (counterAdd c k') rest := rfl
    rw [hstep]
    by_cases h : k' = k
    · subst h
      rw [ih, counterLookup_counterAdd_self]
      have hc : (k' :: rest).count k' = rest.count k' + 1 := by simp
      rw [hc, if_neg (Nat.succ_ne_zero _)]
      by_cases h0 : rest.count k' = 0
      · rw [if_pos h0, h0]
      · rw [if_neg h0]
        simp only [Option.getD_some]
        congr 1
        omega
    · have hc : (k' :: rest).count k = rest.count k := by
        simp [List.count_cons, h]
      rw [hc, ih, counterLookup_counterAdd_ne c fun hh => h hh.symm]

/-- A counter built from scratch holds exactly the keys occurring in the
folded list, each with its multiplicity. -/
theorem counterLookup_build (ks : List String) (k : String) :
    counterLookup (counterFold [] ks) k =
      if ks.count k = 0 then none else some (ks.count k) := by
  rw [counterLookup_counterFold]
  by_cases h : ks.count k = 0 <;> simp [counterLookup, h]

/-- Keys of a counter after an increment: the old keys plus possibly `k`. -/
theorem mem_keys_counterAdd (c : List (String × Nat)) (k x : String) :
    x ∈ (counterAdd c k).map Prod.fst ↔ x ∈ c.map Prod.fst ∨ x = k := by
  induction c with
  | nil => simp [counterAdd]
  | cons p rest ih =>
    obtain ⟨k', n⟩ := p
    by_cases h : k' = k
    · subst h
      rw [counterAdd_cons_eq]
      simp only [List.map_cons, List.mem_cons]
      tauto
    · rw [counterAdd_cons_ne h]
      simp only [List.map_cons, List.mem_cons, ih]
      tauto

/-- An increment preserves distinctness of the counter's keys. -/
theorem nodupKeys_counterAdd (c : List (String × Nat)) (k : String)
    (h : (c.map Prod.fst).Nodup) : ((counterAdd c k).map Prod.fst).Nodup := by
  induction c with
  | nil => simp [counterAdd]
  | cons p rest ih =>
    obtain ⟨k', n⟩ := p
    rw [List.map_cons, List.nodup_cons] at h
    obtain ⟨hnotin, hrest⟩ := h
    by_cases hk : k' = k
    · subst hk
      rw [counterAdd_cons_eq, List.map_cons, List.nodup_cons]
      exact ⟨hnotin, hrest⟩
    · rw [counterAdd_cons_ne hk, List.map_cons, List.nodup_cons]
      refine ⟨?_, ih hrest⟩
      rw [mem_keys_counterAdd]
      rintro (hm | he)
      · exact hnotin hm
      · exact hk he

/-- A counter fold preserves distinctness of the keys. -/
theorem nodupKeys_counterFold (ks : List String) :
    ∀ c, ((c.map Prod.fst).Nodup) → ((counterFold c ks).map Prod.fst).Nodup := by
  induction ks with
  | nil => intro c h; exact h
  | cons k rest ih => intro c h; exact ih _ (nodupKeys_counterAdd c k h)

/-- On a counter with distinct keys, lookup success coincides with pair
membership. -/
theorem counterLookup_eq_some_iff (c : List (String × Nat))
    (hc : (c.map Prod.fst).Nodup) (k : String) (n : Nat) :
    counterLookup c k = some n ↔ (k, n) ∈ c := by
  induction c with
  | nil => simp [counterLookup]
  | cons p rest ih =>
    obtain ⟨k', m⟩ := p
    rw [List.map_cons, List.nodup_cons] at hc
    obtain ⟨hnotin, hrest⟩ := hc
    by_cases h : k' = k
    · subst h
      rw [counterLookup_cons_eq]
      simp only [List.mem_cons, Option.some_inj, Prod.mk.injEq]
      constructor
      · intro hsome
        exact Or.inl ⟨by trivial, hsome.symm⟩
      · rintro (⟨-, he⟩ | hm)
        · exact he.symm
        · exact absurd (List.mem_map_of_mem Prod.fst hm) hnotin
    · rw [counterLookup_cons_ne h, ih hrest]
      simp only [List.mem_cons, Prod.mk.injEq]
      constructor
      · intro hm
        exact Or.inr hm
      · rintro (⟨he, -⟩ | hm)
        · exact absurd he.symm h
        · exact hm

/-! ## The urgency-count maps (C2 amended) -/

/-- Bridge from the aggregate to the counter model: the 7-day urgency map is
the counter of the items' urgency values. -/
theorem urgency_counts_7_eq (items days_7 days_30 : List Item) :
    (compute_metrics items days_7 days_30).urgency_counts_7 =
      counterFold [] (days_7.map getUrgency) := by
  show days_7.foldl (fun c i => counterAdd c (getUrgency i)) [] = _
  rw [counterFold, List.foldl_map]

/-- Bridge for the 30-day urgency map. -/
theorem urgency_counts_30_eq (items days_7 days_30 : List Item) :
    (compute_metrics items days_7 days_30).urgency_counts_30 =
      counterFold [] (days_30.map getUrgency) := by
  show days_30.foldl (fun c i => counterAdd c (getUrgency i)) [] = _
  rw [counterFold, List.foldl_map]

/-- C2 amended: each urgency-count map holds an entry for an urgency value
exactly when some item of its window has that value (after the `Medium`
default), with the value's exact multiplicity; levels with no items are
absent rather than present with value 0. -/
theorem urgency_counts_entry_iff (items days_7 days_30 : List Item) (u : String) :
    counterLookup (compute_metrics items days_7 days_30).urgency_counts_7 u =
      (if (days_7.map getUrgency).count u = 0 then none
       else some ((days_7.map getUrgency).count u)) ∧
    counterLookup (compute_metrics items days_7 days_30).urgency_counts_30 u =
      (if (days_30.map getUrgency).count u = 0 then none
       else some ((days_30.map getUrgency).count u)) := by
  rw [urgency_counts_7_eq, urgency_counts_30_eq]
  exact ⟨counterLookup_build _ _, counterLookup_build _ _⟩

/-! ## Loader lemmas (C6) -/

/-- The loader's fold distributes over its accumulator. -/
theorem load_foldl_acc (dir : String → Option FileData) (dates : List String) :
    ∀ acc : List Item,
      dates.foldl (fun a d => a ++ fileItems d (dir d)) acc =
        acc ++ load_news_files dir dates := by
  induction dates with
  | nil => intro acc; simp [load_news_files]
  | cons d rest ih =>
    intro acc
    show rest.foldl _ (acc ++ fileItems d (dir d)) = _
    rw [ih]
    have h2 : load_news_files dir (d :: rest) =
        fileItems d (dir d) ++ load_news_files dir rest := by
      show rest.foldl _ ([] ++ fileItems d (dir d)) = _
      rw [List.nil_append, ih]
    rw [h2, List.append_assoc]

/-- Loading a concatenation of date ranges concatenates the loads. -/
theorem load_news_files_append (dir : String → Option FileData) (xs ys : List String) :
    load_news_files dir (xs ++ ys) =
      load_news_files dir xs ++ load_news_files dir ys := by
  rw [load_news_files, List.foldl_append, load_foldl_acc]
  rfl

/-- C6: the loader is total (it cannot raise) and processes each date of the
range independently: a date whose file is absent or fails to parse
contributes nothing — the remaining dates still load — while a date whose
file parses to either accepted shape contributes exactly its items,
annotated with the file's date, in place. -/
theorem load_news_files_tolerant (dir : String → Option FileData)
    (pre post : List String) (d : String) :
    ((dir d = none ∨ dir d = some .malformed) →
      load_news_files dir (pre ++ d :: post) = load_news_files dir (pre ++ post)) ∧
    (∀ its, dir d = some (.withItems its) →
      load_news_files dir (pre ++ d :: post) =
        load_news_files dir pre ++ its.map (annotateDate d) ++ load_news_files dir post) ∧
    (∀ its, dir d = some (.bareList its) →
      load_news_files dir (pre ++ d :: post) =
        load_news_files dir pre ++ its.map (annotateDate d) ++ load_news_files dir post) := by
  have hone : load_news_files dir [d] = fileItems d (dir d) := by
    simp [load_news_files]
  have key : load_news_files dir (pre ++ d :: post) =
      load_news_files dir pre ++ (fileItems d (dir d) ++ load_news_files dir post) := by
    have hsplit : pre ++ d :: post = pre ++ ([d] ++ post) := rfl
    rw [hsplit, load_news_files_append, load_news_files_append, hone]
  refine ⟨fun h => ?_, fun its h => ?_, fun its h => ?_⟩
  · rcases h with h | h <;>
      rw [key, h, load_news_files_append] <;> simp [fileItems]
  · rw [key, h]
    simp [fileItems, List.append_assoc]
  · rw [key, h]
    simp [fileItems, List.append_assoc]

/-- Witness for C6: the scenario directory holds a valid two-item file dated
2025-01-01 and a malformed file dated 2025-01-02; loading both days is the
same as loading only the valid day, which yields exactly the two items,
date-annotated. -/
theorem load_news_files_tolerant_witness :
    load_news_files scenarioDir ["2025-01-01", "2025-01-02"] =
      load_news_files scenarioDir ["2025-01-01"] ∧
    load_news_files scenarioDir ["2025-01-01"] =
      [{ title := some "A", date := some "2025-01-01" },
       { title := some "B", date := some "2025-01-01" }] :=
  ⟨(load_news_files_tolerant scenarioDir ["2025-01-01"] [] "2025-01-02").1
      (Or.inr (by decide)),
   by decide⟩

/-! ## Top-article ranking (C8) -/

instance : IsTrans Item itemGE :=
  ⟨by
    intro a b c hab hbc
    rcases hab with h1 | ⟨h1, h1'⟩ <;> rcases hbc with h2 | ⟨h2, h2'⟩
    · exact Or.inl (lt_trans h2 h1)
    · exact Or.inl (lt_of_le_of_lt (le_of_eq h2) h1)
    · exact Or.inl (lt_of_lt_of_le h2 (le_of_eq h1))
    · exact Or.inr ⟨h2.trans h1, le_trans h2' h1'⟩⟩

instance : IsTotal Item itemGE :=
  ⟨by
    intro a b
    rcases Nat.lt_trichotomy (rankOf a).1 (rankOf b).1 with h | h | h
    · exact Or.inr (Or.inl h)
    · rcases le_total (rankOf a).2 (rankOf b).2 with h2 | h2
      · exact Or.inr (Or.inr ⟨h, h2⟩)
      · exact Or.inl (Or.inr ⟨h.symm, h2⟩)
    · exact Or.inl (Or.inl h)⟩

/-- C8: for every input, `top_articles` holds at most 10 summaries, ordered
by urgency priority (High=3, Medium=2, Low=1; any other urgency string
ranks 2, the `dict.get` default) descending, ties broken by the date string
descending under lexicographic comparison. -/
theorem top_articles_le_ten_and_sorted (items days_7 days_30 : List Item) :
    (compute_metrics items days_7 days_30).top_articles.length ≤ 10 ∧
    (compute_metrics items days_7 days_30).top_articles.Pairwise (fun a b =>
      urgencyPriority b.urgency < urgencyPriority a.urgency ∨
      (urgencyPriority b.urgency = urgencyPriority a.urgency ∧ b.date ≤ a.date)) := by
  have htop : (compute_metrics items days_7 days_30).top_articles =
      ((List.insertionSort itemGE items).take 10).map mkSummary := rfl
  constructor
  · rw [htop, List.length_map, List.length_take]
    exact min_le_left _ _
  · rw [htop, List.pairwise_map]
    have hs : List.Pairwise itemGE (List.insertionSort itemGE items) :=
      List.sorted_insertionSort itemGE items
    have ht : List.Pairwise itemGE ((List.insertionSort itemGE items).take 10) :=
      List.Pairwise.sublist (List.take_sublist 10 _) hs
    exact ht.imp fun {a b} h => h

/-! ## Daily counts (C9) -/

instance : IsTrans (String × Nat) pairLe :=
  ⟨by
    intro a b c hab hbc
    rcases hab with h1 | ⟨h1, h1'⟩ <;> rcases hbc with h2 | ⟨h2, h2'⟩
    · exact Or.inl (lt_trans h1 h2)
    · exact Or.inl (lt_of_lt_of_le h1 (le_of_eq h2))
    · exact Or.inl (lt_of_le_of_lt (le_of_eq h1) h2)
    · exact Or.inr ⟨h1.trans h2, le_trans h1' h2'⟩⟩

instance : IsTotal (String × Nat) pairLe :=
  ⟨by
    intro a b
    rcases lt_trichotomy a.1 b.1 with h | h | h
    · exact Or.inl (Or.inl h)
    · rcases le_total a.2 b.2 with h2 | h2
      · exact Or.inl (Or.inr ⟨h, h2⟩)
      · exact Or.inr (Or.inr ⟨h.symm, h2⟩)
    · exact Or.inr (Or.inl h)⟩

/-- The daily fold ignores no item when every date is non-empty: it is the
plain counter fold of the items' dates. -/
theorem dailyFold_eq (days : List Item) :
    ∀ c, (∀ i ∈ days, getDate i ≠ "") →
      days.foldl
        (fun c i => let d := getDate i; if d = "" then c else counterAdd c d) c =
        counterFold c (days.map getDate) := by
  induction days with
  | nil => intro c _; rfl
  | cons i rest ih =>
    intro c h
    have hi : getDate i ≠ "" := h i (List.mem_cons_self i rest)
    show rest.foldl _ (if getDate i = "" then c else counterAdd c (getDate i)) = _
    rw [if_neg hi]
    exact ih _ fun j hj => h j (List.mem_cons_of_mem i hj)

/-- C9: when every 30-day item carries a (non-empty) date, `daily_counts`
is strictly ascending by date and holds exactly one entry per date value
occurring among the items — the entry's count being that date's (positive)
item multiplicity — so dates with zero articles never appear. -/
theorem daily_counts_sorted_complete (items days_7 days_30 : List Item)
    (h : ∀ i ∈ days_30, getDate i ≠ "") :
    (compute_metrics items days_7 days_30).daily_counts.Pairwise
      (fun a b => a.1 < b.1) ∧
    ∀ d n, ((d, n) ∈ (compute_metrics items days_7 days_30).daily_counts ↔
      ((days_30.map getDate).count d = n ∧ 0 < n)) := by
  have hdc : (compute_metrics items days_7 days_30).daily_counts =
      List.insertionSort pairLe (counterFold [] (days_30.map getDate)) := by
    show List.insertionSort pairLe
      (days_30.foldl
        (fun c i => let d := getDate i; if d = "" then c else counterAdd c d) []) = _
    rw [dailyFold_eq days_30 [] h]
  have hnodup : ((counterFold [] (days_30.map getDate)).map Prod.fst).Nodup :=
    nodupKeys_counterFold _ [] (by simp)
  have hperm : (List.insertionSort pairLe (counterFold [] (days_30.map getDate))).Perm
      (counterFold [] (days_30.map getDate)) := List.perm_insertionSort _ _
  have hnodup2 : ((List.insertionSort pairLe
      (counterFold [] (days_30.map getDate))).map Prod.fst).Nodup :=
    ((hperm.map Prod.fst).nodup_iff).mpr hnodup
  have hsorted : List.Pairwise pairLe
      (List.insertionSort pairLe (counterFold [] (days_30.map getDate))) :=
    List.sorted_insertionSort pairLe _
  constructor
  · rw [hdc]
    have hne : List.Pairwise (fun a b : String × Nat => a.1 ≠ b.1)
        (List.insertionSort pairLe (counterFold [] (days_30.map getDate))) :=
      List.pairwise_map.mp hnodup2
    exact (hsorted.and hne).imp fun {a b} hh =>
      hh.1.resolve_right fun he => absurd he.1 hh.2
  · intro d n
    rw [hdc, hperm.mem_iff,
      ← counterLookup_eq_some_iff (counterFold [] (days_30.map getDate)) hnodup d n,
      counterLookup_build]
    by_cases h0 : (days_30.map getDate).count d = 0
    · rw [if_pos h0]
      constructor
      · intro hf
        simp at hf
      · rintro ⟨hcn, hpos⟩
        exact absurd hpos (by omega)
    · rw [if_neg h0]
      constructor
      · intro hs
        injection hs with hs
        exact ⟨hs, by omega⟩
      · rintro ⟨hcn, -⟩
        rw [hcn]

/-- Witness for C9: three items over two dates (one date occurring twice),
every date non-empty. -/
theorem daily_counts_sorted_complete_witness :
    (compute_metrics [] [] c9Items).daily_counts.Pairwise (fun a b => a.1 < b.1) ∧
    (("2025-01-01", 2) ∈ (compute_metrics [] [] c9Items).daily_counts ↔
      ((c9Items.map getDate).count "2025-01-01" = 2 ∧ 0 < 2)) :=
  ⟨(daily_counts_sorted_complete [] [] c9Items (by decide)).1,
   (daily_counts_sorted_complete [] [] c9Items (by decide)).2 "2025-01-01" 2⟩

/-! ## Items without an urgency key (C10) -/

theorem withDefaultUrgency_none {i : Item} (h : i.urgency = none) :
    withDefaultUrgency i = { i with urgency := some "Medium" } := by
  simp [withDefaultUrgency, h]

theorem withDefaultUrgency_some {i : Item} {u : String} (h : i.urgency = some u) :
    withDefaultUrgency i = i := by
  simp [withDefaultUrgency, h]

@[simp] theorem getUrgency_withDefaultUrgency (i : Item) :
    getUrgency (withDefaultUrgency i) = getUrgency i := by
  cases h : i.urgency
  · rw [withDefaultUrgency_none h]
    simp [getUrgency, h]
  · rw [withDefaultUrgency_some h]

@[simp] theorem tags_withDefaultUrgency (i : Item) :
    (withDefaultUrgency i).tags = i.tags := by
  cases h : i.urgency
  · rw [withDefaultUrgency_none h]
  · rw [withDefaultUrgency_some h]

@[simp] theorem date_withDefaultUrgency (i : Item) :
    (withDefaultUrgency i).date = i.date := by
  cases h : i.urgency
  · rw [withDefaultUrgency_none h]
  · rw [withDefaultUrgency_some h]

@[simp] theorem title_withDefaultUrgency (i : Item) :
    (withDefaultUrgency i).title = i.title := by
  cases h : i.urgency
  · rw [withDefaultUrgency_none h]
  · rw [withDefaultUrgency_some h]

@[simp] theorem link_withDefaultUrgency (i : Item) :
    (withDefaultUrgency i).link = i.link := by
  cases h : i.urgency
  · rw [withDefaultUrgency_none h]
  · rw [withDefaultUrgency_some h]

@[simp] theorem summary_withDefaultUrgency (i : Item) :
    (withDefaultUrgency i).summary = i.summary := by
  cases h : i.urgency
  · rw [withDefaultUrgency_none h]
  · rw [withDefaultUrgency_some h]

@[simp] theorem source_withDefaultUrgency (i : Item) :
    (withDefaultUrgency i).source = i.source := by
  cases h : i.urgency
  · rw [withDefaultUrgency_none h]
  · rw [withDefaultUrgency_some h]

@[simp] theorem getTags_withDefaultUrgency (i : Item) :
    getTags (withDefaultUrgency i) = getTags i := by
  rw [getTags, getTags, tags_withDefaultUrgency]

@[simp] theorem getDate_withDefaultUrgency (i : Item) :
    getDate (withDefaultUrgency i) = getDate i := by
  rw [getDate, getDate, date_withDefaultUrgency]

@[simp] theorem sourceOf_withDefaultUrgency (i : Item) :
    sourceOf (withDefaultUrgency i) = sourceOf i := by
  unfold sourceOf
  rw [source_withDefaultUrgency, link_withDefaultUrgency]

@[simp] theorem mkSummary_withDefaultUrgency (i : Item) :
    mkSummary (withDefaultUrgency i) = mkSummary i := by
  rw [mkSummary, mkSummary]
  simp

@[simp] theorem rankOf_withDefaultUrgency (i : Item) :
    rankOf (withDefaultUrgency i) = rankOf i := by
  rw [rankOf, rankOf, getUrgency_withDefaultUrgency, getDate_withDefaultUrgency]

/-- Materializing the urgency default commutes with the ranking insertion. -/
theorem orderedInsert_map_withDefault (a : Item) (l : List Item) :
    List.orderedInsert itemGE (withDefaultUrgency a) (l.map withDefaultUrgency) =
      (List.orderedInsert itemGE a l).map withDefaultUrgency := by
  induction l with
  | nil => rfl
  | cons b t ih =>
    have heq : itemGE (withDefaultUrgency a) (withDefaultUrgency b) ↔ itemGE a b := by
      rw [itemGE, itemGE, rankOf_withDefaultUrgency, rankOf_withDefaultUrgency]
    rw [List.map_cons, List.orderedInsert, List.orderedInsert]
    by_cases h : itemGE a b
    · rw [if_pos (heq.mpr h), if_pos h, List.map_cons, List.map_cons]
    · rw [if_neg fun hh => h (heq.mp hh), if_neg h, List.map_cons, ih]

/-- Materializing the urgency default commutes with the ranking sort. -/
theorem insertionSort_map_withDefault (l : List Item) :
    List.insertionSort itemGE (l.map withDefaultUrgency) =
      (List.insertionSort itemGE l).map withDefaultUrgency := by
  induction l with
  | nil => rfl
  | cons a t ih =>
    rw [List.map_cons, List.insertionSort, List.insertionSort, ih,
      orderedInsert_map_withDefault]

/-- C10: an item without an `urgency` key is aggregated exactly as if its
urgency were the explicit string `"Medium"` — the whole metrics record is
unchanged when the default is materialized in all three windows; in
particular the blank item is counted under the `Medium` key of
`urgency_counts` and is ranked with priority 2. -/
theorem absent_urgency_treated_as_medium (items days_7 days_30 : List Item) :
    compute_metrics (items.map withDefaultUrgency) (days_7.map withDefaultUrgency)
        (days_30.map withDefaultUrgency) =
      compute_metrics items days_7 days_30 ∧
    counterLookup (compute_metrics [] [blankItem] [blankItem]).urgency_counts_7 "Medium" =
      some 1 ∧
    rankOf blankItem = (2, "") := by
  refine ⟨?_, by decide, by decide⟩
  simp only [compute_metrics, List.foldl_map, List.length_map,
    getUrgency_withDefaultUrgency, getTags_withDefaultUrgency,
    getDate_withDefaultUrgency, sourceOf_withDefaultUrgency,
    title_withDefaultUrgency, summary_withDefaultUrgency,
    insertionSort_map_withDefault, ← List.map_take, List.map_map,
    Function.comp_def, mkSummary_withDefaultUrgency]

end TenGuard
